import Mathlib

set_option maxRecDepth 8000

/-!
Formal model of the `wand` native-binding layer.

This file gives a shallow embedding of the two source files of the
repository, `wand/api.py` and `wand/cli.py`, and proves properties of the
embedded definitions.

Conventions of the embedding:

* Python strings are modelled as `List Char`; the handful of `str` methods
  the code uses (`strip`, `split`, `format`) are modelled by executable
  Lean functions (`pyStrip`, `pySplit`, `pyFormat`) that follow CPython's
  documented behaviour for the inputs the code can produce (`pyFormat`
  implements simple `\x7bname\x7d` placeholder substitution, the core of
  `str.format` used by `Parser.__call__`).
* Calls into the native ImageMagick libraries are modelled as events of an
  inductive type `NativeCall`; a function that makes native calls returns
  the ordered trace of the calls it performed.  A foreign call made
  through `ctypes` with declared argument types returns normally at the
  Python level (a native crash aborts the process and is outside the
  language semantics), so the model treats every native call as a
  returning event; the integer result of `MagickCommandGenesis` is a
  parameter of the model.
* Python values that can be handed to `Parser.run` are modelled by the
  small universe `PyVal` (strings, integers, and lists); this is enough to
  distinguish "not a `collections.Sequence`" from "a sequence holding a
  non-string element", which is what the error-handling properties are
  about.
* Fallible Python code returns `Except`/sum-like results; the error
  classes that occur (`TypeError`, `ValueError`, `IndexError`) are the
  constructors of `PyOutcome`.
-/

namespace Wand

/-! ### Python character and string primitives -/

/-- The opening curly brace character (`\x7b`). -/
def lbrace : Char := Char.ofNat 123

/-- The closing curly brace character (`\x7d`). -/
def rbrace : Char := Char.ofNat 125

/-- CPython's notion of whitespace for `str.strip()` and `str.split()`:
space, tab, newline, carriage return, vertical tab, form feed. -/
def pyIsSpace (c : Char) : Bool :=
  c == ' ' || c == '\t' || c == '\n' || c == '\r' ||
    c == Char.ofNat 11 || c == Char.ofNat 12

/-- `str.strip()`: remove leading and trailing whitespace. -/
def pyStrip (l : List Char) : List Char :=
  ((l.dropWhile pyIsSpace).reverse.dropWhile pyIsSpace).reverse

/-- Worker for `pySplit`; `acc` holds the (reversed) current word. -/
def pySplitGo : List Char → List Char → List (List Char)
  | [], acc => if acc = [] then [] else [acc.reverse]
  | c :: cs, acc =>
    if pyIsSpace c then
      if acc = [] then pySplitGo cs [] else acc.reverse :: pySplitGo cs []
    else pySplitGo cs (c :: acc)

/-- `str.split()` with no argument: split on runs of whitespace, dropping
empty words (so leading and trailing whitespace is ignored). -/
def pySplit (l : List Char) : List (List Char) := pySplitGo l []

/-- Worker for `pyFormat`.  `inField` says whether we are inside a
`\x7b...\x7d` replacement field; `acc` holds the (reversed) field name
read so far.  Reaching the end of the string inside a field is an error
(`none`), mirroring `str.format` raising for an unterminated field. -/
def fmtGo (v : String → List Char) : List Char → List Char → Bool → Option (List Char)
  | [], _, true => none
  | [], _, false => some []
  | c :: rest, acc, true =>
    if c == rbrace then
      Option.map (fun s => v (String.mk acc.reverse) ++ s) (fmtGo v rest [] false)
    else fmtGo v rest (c :: acc) true
  | c :: rest, acc, false =>
    if c == lbrace then fmtGo v rest [] true
    else Option.map (fun s => c :: s) (fmtGo v rest acc false)

/-- `template.format(**kwargs)` restricted to simple named replacement
fields, which is the shape `Parser.__call__` relies on: each
`\x7bname\x7d` is replaced by `v name`. -/
def pyFormat (v : String → List Char) (l : List Char) : Option (List Char) :=
  fmtGo v l [] false

/-! ### Native-call events

Every call the embedded code makes into the MagickWand / MagickCore
shared libraries is recorded as one of these events. -/

inductive NativeCall where
  | acquireImageInfo
  | destroyImageInfo
  | acquireExceptionInfo
  | destroyExceptionInfo
  | commandGenesis (utility : String) (argc : Nat)
  | catchException
  | magickRelinquishMemory (addr : Nat)
deriving DecidableEq, BEq

/-! ### `wand/api.py` — the owned-string wrapper `c_magick_char_p`

`c_magick_char_p.__del__` is one statement: it calls
`library.MagickRelinquishMemory(self)` on the raw held address, with no
null test of its own (the docstring notes `MagickRelinquishMemory`
handles `NULL`).  Addresses are modelled as `Nat` with `0` for `NULL`. -/

/-- The body of `c_magick_char_p.__del__`: the trace of native calls it
makes, given the raw address the wrapper holds. -/
def c_magick_char_p_del (addr : Nat) : List NativeCall :=
  [.magickRelinquishMemory addr]

/-- A live or already-finalized owned-string wrapper.  CPython invokes
`__del__` at most once per object (when its reference count reaches
zero); `finalized` records whether that has happened. -/
structure OwnedString where
  addr : Nat
  finalized : Bool

/-- One discard attempt on the wrapper: the first one runs `__del__`,
later ones are no-ops (the host runtime never re-runs a finalizer). -/
def discard (w : OwnedString) : OwnedString × List NativeCall :=
  if w.finalized then (w, [])
  else ({ w with finalized := true }, c_magick_char_p_del w.addr)

/-- The native calls made by `n` successive discard attempts. -/
def discardMany : Nat → OwnedString → List NativeCall
  | 0, _ => []
  | n + 1, w =>
    let r := discard w
    r.2 ++ discardMany n r.1

/-! ### `wand/api.py` — declaration attachment (module initialization)

Lines 187–1283 of `api.py` attach `argtypes`/`restype` metadata to the
declared function names, one attribute access per statement, inside one
big `try` block whose handler turns an `AttributeError` into a fatal
`ImportError`.  Five declarations sit in their own inner
`try/except AttributeError` blocks and are skipped silently when the
name is absent.  `Decl` records, in source order, each attribute access
(`name`) and whether it is inside such an inner guard (`guarded`). -/

structure Decl where
  name : String
  guarded : Bool
deriving DecidableEq

/-- Result of running the declaration block of `api.py`. -/
inductive InitOutcome where
  | ready
  | importError (name : String)
deriving DecidableEq

/-- Runs the declaration block against a library modelled as the set of
function names it exports (`lib name = true` iff the symbol resolves).
An absent name inside an inner guard is skipped; an absent unguarded
name escapes to the outer handler, which raises `ImportError`. -/
def attachDeclarations (lib : String → Bool) : List Decl → InitOutcome
  | [] => .ready
  | d :: rest =>
    if lib d.name then attachDeclarations lib rest
    else if d.guarded then attachDeclarations lib rest
    else .importError d.name

/-- Chunk 1 of the declaration-access list (source order). -/
def apiDeclarations1 : List Decl := [
  ⟨"AcquireExceptionInfo", false⟩,
  ⟨"AcquireExceptionInfo", false⟩,
  ⟨"CloneImages", false⟩,
  ⟨"CloneImages", false⟩,
  ⟨"DestroyExceptionInfo", false⟩,
  ⟨"DestroyExceptionInfo", false⟩,
  ⟨"GetMagickVersion", false⟩,
  ⟨"GetMagickVersion", false⟩,
  ⟨"GetMagickReleaseDate", false⟩,
  ⟨"GetMagickReleaseDate", false⟩,
  ⟨"GetMagickQuantumDepth", false⟩,
  ⟨"GetMagickQuantumDepth", false⟩,
  ⟨"GetNextImageInList", false⟩,
  ⟨"GetNextImageInList", false⟩,
  ⟨"MagickToMime", false⟩,
  ⟨"MagickToMime", false⟩,
  ⟨"ClearMagickWand", false⟩,
  ⟨"CloneMagickWand", false⟩,
  ⟨"CloneMagickWand", false⟩,
  ⟨"DestroyMagickWand", false⟩,
  ⟨"DestroyMagickWand", false⟩,
  ⟨"IsMagickWand", false⟩,
  ⟨"IsMagickWandInstantiated", false⟩,
  ⟨"MagickClearException", false⟩,
  ⟨"MagickGetException", false⟩,
  ⟨"MagickGetException", false⟩,
  ⟨"MagickGetExceptionType", false⟩,
  ⟨"MagickGetExceptionType", false⟩,
  ⟨"MagickGetIteratorIndex", false⟩,
  ⟨"MagickGetIteratorIndex", false⟩,
  ⟨"MagickQueryConfigureOption", false⟩,
  ⟨"MagickQueryConfigureOption", false⟩,
  ⟨"MagickQueryConfigureOptions", false⟩,
  ⟨"MagickQueryConfigureOptions", false⟩,
  ⟨"MagickQueryFontMetrics", false⟩,
  ⟨"MagickQueryFontMetrics", false⟩,
  ⟨"MagickQueryMultilineFontMetrics", false⟩,
  ⟨"MagickQueryMultilineFontMetrics", false⟩,
  ⟨"MagickQueryFonts", false⟩,
  ⟨"MagickQueryFonts", false⟩
]

/-- Chunk 2 of the declaration-access list (source order). -/
def apiDeclarations2 : List Decl := [
  ⟨"MagickQueryFormats", false⟩,
  ⟨"MagickQueryFormats", false⟩,
  ⟨"MagickRelinquishMemory", false⟩,
  ⟨"MagickRelinquishMemory", false⟩,
  ⟨"MagickResetIterator", false⟩,
  ⟨"MagickSetFirstIterator", false⟩,
  ⟨"MagickSetIteratorIndex", false⟩,
  ⟨"MagickSetLastIterator", false⟩,
  ⟨"MagickWandGenesis", false⟩,
  ⟨"MagickWandTerminus", false⟩,
  ⟨"NewMagickWand", false⟩,
  ⟨"NewMagickWand", false⟩,
  ⟨"NewMagickWandFromImage", false⟩,
  ⟨"NewMagickWandFromImage", false⟩,
  ⟨"MagickDeleteImageArtifact", false⟩,
  ⟨"MagickDeleteImageProperty", false⟩,
  ⟨"MagickDeleteOption", false⟩,
  ⟨"MagickGetAntialias", false⟩,
  ⟨"MagickGetAntialias", false⟩,
  ⟨"MagickGetBackgroundColor", false⟩,
  ⟨"MagickGetBackgroundColor", false⟩,
  ⟨"MagickGetColorspace", false⟩,
  ⟨"MagickGetColorspace", false⟩,
  ⟨"MagickGetCompression", false⟩,
  ⟨"MagickGetCompression", false⟩,
  ⟨"MagickGetCompressionQuality", false⟩,
  ⟨"MagickGetCompressionQuality", false⟩,
  ⟨"MagickGetCopyright", false⟩,
  ⟨"MagickGetFont", false⟩,
  ⟨"MagickGetFont", false⟩,
  ⟨"MagickGetGravity", false⟩,
  ⟨"MagickGetGravity", false⟩,
  ⟨"MagickGetImageProperty", false⟩,
  ⟨"MagickGetImageProperty", false⟩,
  ⟨"MagickGetImageProperties", false⟩,
  ⟨"MagickGetImageProperties", false⟩,
  ⟨"MagickGetOption", false⟩,
  ⟨"MagickGetOption", false⟩,
  ⟨"MagickGetPointsize", false⟩,
  ⟨"MagickGetPointsize", false⟩
]

/-- Chunk 3 of the declaration-access list (source order). -/
def apiDeclarations3 : List Decl := [
  ⟨"MagickGetQuantumRange", false⟩,
  ⟨"MagickGetSize", false⟩,
  ⟨"MagickGetSize", false⟩,
  ⟨"MagickSetAntialias", false⟩,
  ⟨"MagickSetAntialias", false⟩,
  ⟨"MagickSetBackgroundColor", false⟩,
  ⟨"MagickSetBackgroundColor", false⟩,
  ⟨"MagickSetFilename", false⟩,
  ⟨"MagickSetFont", false⟩,
  ⟨"MagickSetFont", false⟩,
  ⟨"MagickSetGravity", false⟩,
  ⟨"MagickSetGravity", false⟩,
  ⟨"MagickSetImageProperty", false⟩,
  ⟨"MagickSetOption", false⟩,
  ⟨"MagickSetOption", false⟩,
  ⟨"MagickSetPointsize", false⟩,
  ⟨"MagickSetPointsize", false⟩,
  ⟨"MagickSetResolution", false⟩,
  ⟨"MagickSetSize", false⟩,
  ⟨"MagickSetSize", false⟩,
  ⟨"GetImageFromMagickWand", false⟩,
  ⟨"GetImageFromMagickWand", false⟩,
  ⟨"MagickAddImage", false⟩,
  ⟨"MagickAnnotateImage", false⟩,
  ⟨"MagickAnnotateImage", false⟩,
  ⟨"MagickAppendImages", false⟩,
  ⟨"MagickAppendImages", false⟩,
  ⟨"MagickAutoOrientImage", true⟩,
  ⟨"MagickBorderImage", false⟩,
  ⟨"MagickCoalesceImages", false⟩,
  ⟨"MagickCoalesceImages", false⟩,
  ⟨"MagickCompositeImage", false⟩,
  ⟨"MagickCompositeImageChannel", false⟩,
  ⟨"MagickContrastStretchImage", false⟩,
  ⟨"MagickContrastStretchImageChannel", false⟩,
  ⟨"MagickCropImage", false⟩,
  ⟨"MagickDistortImage", false⟩,
  ⟨"MagickDistortImage", false⟩,
  ⟨"MagickDrawImage", false⟩,
  ⟨"MagickDrawImage", false⟩
]

/-- Chunk 4 of the declaration-access list (source order). -/
def apiDeclarations4 : List Decl := [
  ⟨"MagickEqualizeImage", false⟩,
  ⟨"MagickEvaluateImage", false⟩,
  ⟨"MagickEvaluateImageChannel", false⟩,
  ⟨"MagickFlipImage", false⟩,
  ⟨"MagickFlopImage", false⟩,
  ⟨"MagickFrameImage", false⟩,
  ⟨"MagickFunctionImage", false⟩,
  ⟨"MagickFunctionImageChannel", false⟩,
  ⟨"MagickFxImage", false⟩,
  ⟨"MagickFxImage", false⟩,
  ⟨"MagickFxImageChannel", false⟩,
  ⟨"MagickFxImageChannel", false⟩,
  ⟨"MagickGammaImage", false⟩,
  ⟨"MagickGammaImageChannel", false⟩,
  ⟨"MagickGaussianBlurImage", false⟩,
  ⟨"MagickGetImageAlphaChannel", false⟩,
  ⟨"MagickGetImageAlphaChannel", false⟩,
  ⟨"MagickGetImageBackgroundColor", false⟩,
  ⟨"MagickGetImageBlob", false⟩,
  ⟨"MagickGetImageBlob", false⟩,
  ⟨"MagickGetImagesBlob", false⟩,
  ⟨"MagickGetImagesBlob", false⟩,
  ⟨"MagickGetImageColorspace", false⟩,
  ⟨"MagickGetImageColorspace", false⟩,
  ⟨"MagickGetImageCompression", false⟩,
  ⟨"MagickGetImageCompression", false⟩,
  ⟨"MagickGetImageCompressionQuality", false⟩,
  ⟨"MagickGetImageCompressionQuality", false⟩,
  ⟨"MagickGetImageDelay", false⟩,
  ⟨"MagickGetImageDelay", false⟩,
  ⟨"MagickGetImageDepth", false⟩,
  ⟨"MagickGetImageDepth", false⟩,
  ⟨"MagickGetImageChannelDepth", false⟩,
  ⟨"MagickGetImageChannelDepth", false⟩,
  ⟨"MagickGetImageFormat", false⟩,
  ⟨"MagickGetImageFormat", false⟩,
  ⟨"MagickGetImageHeight", false⟩,
  ⟨"MagickGetImageHeight", false⟩,
  ⟨"MagickGetImageHistogram", false⟩,
  ⟨"MagickGetImageHistogram", false⟩
]

/-- Chunk 5 of the declaration-access list (source order). -/
def apiDeclarations5 : List Decl := [
  ⟨"MagickGetImageMatteColor", false⟩,
  ⟨"MagickGetImageOrientation", false⟩,
  ⟨"MagickGetImageOrientation", false⟩,
  ⟨"MagickGetImageResolution", false⟩,
  ⟨"MagickGetImageSignature", false⟩,
  ⟨"MagickGetImageSignature", false⟩,
  ⟨"MagickGetImageType", false⟩,
  ⟨"MagickGetImageUnits", false⟩,
  ⟨"MagickGetImageVirtualPixelMethod", false⟩,
  ⟨"MagickGetImageWidth", false⟩,
  ⟨"MagickGetImageWidth", false⟩,
  ⟨"MagickGetNumberImages", false⟩,
  ⟨"MagickGetNumberImages", false⟩,
  ⟨"MagickIdentifyImage", false⟩,
  ⟨"MagickIdentifyImage", false⟩,
  ⟨"MagickLinearStretchImage", false⟩,
  ⟨"MagickLiquidRescaleImage", false⟩,
  ⟨"MagickModulateImage", false⟩,
  ⟨"MagickNegateImage", false⟩,
  ⟨"MagickNegateImageChannel", false⟩,
  ⟨"MagickNewImage", false⟩,
  ⟨"MagickNormalizeImage", false⟩,
  ⟨"MagickNormalizeImageChannel", false⟩,
  ⟨"MagickReadImage", false⟩,
  ⟨"MagickReadImageBlob", false⟩,
  ⟨"MagickReadImageFile", false⟩,
  ⟨"MagickRemoveImage", false⟩,
  ⟨"MagickResetImagePage", false⟩,
  ⟨"MagickResizeImage", false⟩,
  ⟨"MagickRotateImage", false⟩,
  ⟨"MagickSampleImage", false⟩,
  ⟨"MagickSeparateImageChannel", false⟩,
  ⟨"MagickSetImageBackgroundColor", false⟩,
  ⟨"MagickSetImageColorspace", false⟩,
  ⟨"MagickSetImageCompression", false⟩,
  ⟨"MagickSetImageCompressionQuality", false⟩,
  ⟨"MagickSetImageDelay", false⟩,
  ⟨"MagickSetImageDepth", false⟩,
  ⟨"MagickSetImageFormat", false⟩,
  ⟨"MagickSetImageMatte", false⟩
]

/-- Chunk 6 of the declaration-access list (source order). -/
def apiDeclarations6 : List Decl := [
  ⟨"MagickSetImageMatteColor", false⟩,
  ⟨"MagickSetImageAlphaChannel", false⟩,
  ⟨"MagickSetImageOrientation", false⟩,
  ⟨"MagickSetImageResolution", false⟩,
  ⟨"MagickSetImageType", false⟩,
  ⟨"MagickSetImageUnits", false⟩,
  ⟨"MagickSetImageVirtualPixelMethod", false⟩,
  ⟨"MagickStripImage", false⟩,
  ⟨"MagickThresholdImage", false⟩,
  ⟨"MagickThresholdImageChannel", false⟩,
  ⟨"MagickTransformImage", false⟩,
  ⟨"MagickTransformImage", false⟩,
  ⟨"MagickTransparentPaintImage", false⟩,
  ⟨"MagickTransposeImage", false⟩,
  ⟨"MagickTransverseImage", false⟩,
  ⟨"MagickTrimImage", false⟩,
  ⟨"MagickUnsharpMaskImage", false⟩,
  ⟨"MagickWriteImage", false⟩,
  ⟨"MagickWriteImageFile", false⟩,
  ⟨"MagickWriteImages", false⟩,
  ⟨"MagickWriteImagesFile", false⟩,
  ⟨"ClonePixelIterator", false⟩,
  ⟨"ClonePixelIterator", false⟩,
  ⟨"DestroyPixelIterator", false⟩,
  ⟨"DestroyPixelIterator", false⟩,
  ⟨"IsPixelIterator", false⟩,
  ⟨"NewPixelIterator", false⟩,
  ⟨"NewPixelIterator", false⟩,
  ⟨"PixelClearIteratorException", false⟩,
  ⟨"PixelGetIteratorException", false⟩,
  ⟨"PixelGetIteratorException", false⟩,
  ⟨"PixelGetNextIteratorRow", false⟩,
  ⟨"PixelGetNextIteratorRow", false⟩,
  ⟨"PixelSetFirstIteratorRow", false⟩,
  ⟨"PixelSetIteratorRow", false⟩,
  ⟨"DestroyPixelWand", false⟩,
  ⟨"DestroyPixelWand", false⟩,
  ⟨"IsPixelWandSimilar", false⟩,
  ⟨"IsPixelWand", false⟩,
  ⟨"NewPixelWand", false⟩
]

/-- Chunk 7 of the declaration-access list (source order). -/
def apiDeclarations7 : List Decl := [
  ⟨"NewPixelWand", false⟩,
  ⟨"PixelClearException", false⟩,
  ⟨"PixelGetAlpha", false⟩,
  ⟨"PixelGetAlpha", false⟩,
  ⟨"PixelGetAlphaQuantum", false⟩,
  ⟨"PixelGetAlphaQuantum", false⟩,
  ⟨"PixelGetBlue", false⟩,
  ⟨"PixelGetBlue", false⟩,
  ⟨"PixelGetBlueQuantum", false⟩,
  ⟨"PixelGetBlueQuantum", false⟩,
  ⟨"PixelGetColorAsString", false⟩,
  ⟨"PixelGetColorAsString", false⟩,
  ⟨"PixelGetColorAsNormalizedString", false⟩,
  ⟨"PixelGetColorAsNormalizedString", false⟩,
  ⟨"PixelGetColorCount", false⟩,
  ⟨"PixelGetColorCount", false⟩,
  ⟨"PixelGetException", false⟩,
  ⟨"PixelGetException", false⟩,
  ⟨"PixelGetGreen", false⟩,
  ⟨"PixelGetGreen", false⟩,
  ⟨"PixelGetGreenQuantum", false⟩,
  ⟨"PixelGetGreenQuantum", false⟩,
  ⟨"PixelGetMagickColor", false⟩,
  ⟨"PixelGetRed", false⟩,
  ⟨"PixelGetRed", false⟩,
  ⟨"PixelGetRedQuantum", false⟩,
  ⟨"PixelGetRedQuantum", false⟩,
  ⟨"PixelSetColor", false⟩,
  ⟨"PixelSetMagickColor", false⟩,
  ⟨"ClearDrawingWand", false⟩,
  ⟨"CloneDrawingWand", false⟩,
  ⟨"CloneDrawingWand", false⟩,
  ⟨"DestroyDrawingWand", false⟩,
  ⟨"DestroyDrawingWand", false⟩,
  ⟨"DrawAffine", false⟩,
  ⟨"DrawAnnotation", false⟩,
  ⟨"DrawArc", false⟩,
  ⟨"DrawBezier", false⟩,
  ⟨"DrawCircle", false⟩,
  ⟨"DrawClearException", false⟩
]

/-- Chunk 8 of the declaration-access list (source order). -/
def apiDeclarations8 : List Decl := [
  ⟨"DrawClearException", false⟩,
  ⟨"DrawComposite", false⟩,
  ⟨"DrawColor", false⟩,
  ⟨"DrawComment", false⟩,
  ⟨"DrawEllipse", false⟩,
  ⟨"DrawGetBorderColor", false⟩,
  ⟨"DrawGetClipPath", false⟩,
  ⟨"DrawGetClipPath", false⟩,
  ⟨"DrawGetClipRule", false⟩,
  ⟨"DrawGetClipRule", false⟩,
  ⟨"DrawGetClipUnits", false⟩,
  ⟨"DrawGetClipUnits", false⟩,
  ⟨"DrawGetException", false⟩,
  ⟨"DrawGetException", false⟩,
  ⟨"DrawGetFillColor", false⟩,
  ⟨"DrawGetFillOpacity", false⟩,
  ⟨"DrawGetFillOpacity", false⟩,
  ⟨"DrawGetFillRule", false⟩,
  ⟨"DrawGetFillRule", false⟩,
  ⟨"DrawGetFont", false⟩,
  ⟨"DrawGetFont", false⟩,
  ⟨"DrawGetFontFamily", false⟩,
  ⟨"DrawGetFontFamily", false⟩,
  ⟨"DrawGetFontResolution", false⟩,
  ⟨"DrawGetFontResolution", false⟩,
  ⟨"DrawGetFontSize", false⟩,
  ⟨"DrawGetFontSize", false⟩,
  ⟨"DrawGetFontStretch", false⟩,
  ⟨"DrawGetFontStretch", false⟩,
  ⟨"DrawGetFontStyle", false⟩,
  ⟨"DrawGetFontStyle", false⟩,
  ⟨"DrawGetFontWeight", false⟩,
  ⟨"DrawGetFontWeight", false⟩,
  ⟨"DrawGetGravity", false⟩,
  ⟨"DrawGetGravity", false⟩,
  ⟨"DrawGetOpacity", false⟩,
  ⟨"DrawGetOpacity", false⟩,
  ⟨"DrawGetStrokeAntialias", false⟩,
  ⟨"DrawGetStrokeAntialias", false⟩,
  ⟨"DrawGetStrokeColor", false⟩
]

/-- Chunk 9 of the declaration-access list (source order). -/
def apiDeclarations9 : List Decl := [
  ⟨"DrawGetStrokeDashArray", false⟩,
  ⟨"DrawGetStrokeDashArray", false⟩,
  ⟨"DrawGetStrokeDashOffset", false⟩,
  ⟨"DrawGetStrokeDashOffset", false⟩,
  ⟨"DrawGetStrokeLineCap", false⟩,
  ⟨"DrawGetStrokeLineCap", false⟩,
  ⟨"DrawGetStrokeLineJoin", false⟩,
  ⟨"DrawGetStrokeLineJoin", false⟩,
  ⟨"DrawGetStrokeMiterLimit", false⟩,
  ⟨"DrawGetStrokeMiterLimit", false⟩,
  ⟨"DrawGetStrokeOpacity", false⟩,
  ⟨"DrawGetStrokeOpacity", false⟩,
  ⟨"DrawGetStrokeWidth", false⟩,
  ⟨"DrawGetStrokeWidth", false⟩,
  ⟨"DrawGetTextAlignment", false⟩,
  ⟨"DrawGetTextAlignment", false⟩,
  ⟨"DrawGetTextAntialias", false⟩,
  ⟨"DrawGetTextAntialias", false⟩,
  ⟨"DrawGetTextDecoration", false⟩,
  ⟨"DrawGetTextDecoration", false⟩,
  ⟨"DrawGetTextDirection", true⟩,
  ⟨"DrawGetTextDirection", true⟩,
  ⟨"DrawGetTextEncoding", false⟩,
  ⟨"DrawGetTextEncoding", false⟩,
  ⟨"DrawGetTextKerning", false⟩,
  ⟨"DrawGetTextKerning", false⟩,
  ⟨"DrawGetTextInterlineSpacing", true⟩,
  ⟨"DrawGetTextInterlineSpacing", true⟩,
  ⟨"DrawGetTextInterwordSpacing", false⟩,
  ⟨"DrawGetTextInterwordSpacing", false⟩,
  ⟨"DrawGetVectorGraphics", false⟩,
  ⟨"DrawGetVectorGraphics", false⟩,
  ⟨"DrawGetTextUnderColor", false⟩,
  ⟨"DrawLine", false⟩,
  ⟨"DrawMatte", false⟩,
  ⟨"DrawPathClose", false⟩,
  ⟨"DrawPathCurveToAbsolute", false⟩,
  ⟨"DrawPathCurveToRelative", false⟩,
  ⟨"DrawPathCurveToQuadraticBezierAbsolute", false⟩,
  ⟨"DrawPathCurveToQuadraticBezierRelative", false⟩
]

/-- Chunk 10 of the declaration-access list (source order). -/
def apiDeclarations10 : List Decl := [
  ⟨"DrawPathCurveToQuadraticBezierSmoothAbsolute", false⟩,
  ⟨"DrawPathCurveToQuadraticBezierSmoothRelative", false⟩,
  ⟨"DrawPathCurveToSmoothAbsolute", false⟩,
  ⟨"DrawPathCurveToSmoothRelative", false⟩,
  ⟨"DrawPathEllipticArcAbsolute", false⟩,
  ⟨"DrawPathEllipticArcRelative", false⟩,
  ⟨"DrawPathFinish", false⟩,
  ⟨"DrawPathLineToAbsolute", false⟩,
  ⟨"DrawPathLineToRelative", false⟩,
  ⟨"DrawPathLineToHorizontalAbsolute", false⟩,
  ⟨"DrawPathLineToHorizontalRelative", false⟩,
  ⟨"DrawPathLineToVerticalAbsolute", false⟩,
  ⟨"DrawPathLineToVerticalRelative", false⟩,
  ⟨"DrawPathMoveToAbsolute", false⟩,
  ⟨"DrawPathMoveToRelative", false⟩,
  ⟨"DrawPathStart", false⟩,
  ⟨"DrawPoint", false⟩,
  ⟨"DrawPolygon", false⟩,
  ⟨"DrawPolyline", false⟩,
  ⟨"DrawPopClipPath", false⟩,
  ⟨"DrawPopDefs", false⟩,
  ⟨"DrawPopPattern", false⟩,
  ⟨"DrawPushClipPath", false⟩,
  ⟨"DrawPushDefs", false⟩,
  ⟨"DrawPushPattern", false⟩,
  ⟨"DrawRectangle", false⟩,
  ⟨"DrawResetVectorGraphics", false⟩,
  ⟨"DrawRotate", false⟩,
  ⟨"DrawRoundRectangle", false⟩,
  ⟨"DrawScale", false⟩,
  ⟨"DrawSetBorderColor", false⟩,
  ⟨"DrawSetClipPath", false⟩,
  ⟨"DrawSetClipPath", false⟩,
  ⟨"DrawSetClipRule", false⟩,
  ⟨"DrawSetClipUnits", false⟩,
  ⟨"DrawSetFillColor", false⟩,
  ⟨"DrawSetFillOpacity", false⟩,
  ⟨"DrawSetFillPatternURL", false⟩,
  ⟨"DrawSetFillPatternURL", false⟩,
  ⟨"DrawSetFillRule", false⟩
]

/-- Chunk 11 of the declaration-access list (source order). -/
def apiDeclarations11 : List Decl := [
  ⟨"DrawSetFont", false⟩,
  ⟨"DrawSetFontFamily", false⟩,
  ⟨"DrawSetFontFamily", false⟩,
  ⟨"DrawSetFontResolution", false⟩,
  ⟨"DrawSetFontResolution", false⟩,
  ⟨"DrawSetFontSize", false⟩,
  ⟨"DrawSetFontStretch", false⟩,
  ⟨"DrawSetFontStyle", false⟩,
  ⟨"DrawSetFontWeight", false⟩,
  ⟨"DrawSetOpacity", false⟩,
  ⟨"DrawSetGravity", false⟩,
  ⟨"DrawSetStrokeAntialias", false⟩,
  ⟨"DrawSetStrokeColor", false⟩,
  ⟨"DrawSetStrokeDashArray", false⟩,
  ⟨"DrawSetStrokeDashOffset", false⟩,
  ⟨"DrawSetStrokeLineCap", false⟩,
  ⟨"DrawSetStrokeLineJoin", false⟩,
  ⟨"DrawSetStrokeMiterLimit", false⟩,
  ⟨"DrawSetStrokeOpacity", false⟩,
  ⟨"DrawSetStrokePatternURL", false⟩,
  ⟨"DrawSetStrokePatternURL", false⟩,
  ⟨"DrawSetStrokeWidth", false⟩,
  ⟨"DrawSetTextAlignment", false⟩,
  ⟨"DrawSetTextAntialias", false⟩,
  ⟨"DrawSetTextDecoration", false⟩,
  ⟨"DrawSetTextDirection", true⟩,
  ⟨"DrawSetTextEncoding", false⟩,
  ⟨"DrawSetTextInterlineSpacing", true⟩,
  ⟨"DrawSetTextInterwordSpacing", false⟩,
  ⟨"DrawSetTextKerning", false⟩,
  ⟨"DrawSetTextUnderColor", false⟩,
  ⟨"DrawSetVectorGraphics", false⟩,
  ⟨"DrawSetViewbox", false⟩,
  ⟨"DrawSkewX", false⟩,
  ⟨"DrawSkewY", false⟩,
  ⟨"DrawTranslate", false⟩,
  ⟨"IsDrawingWand", false⟩,
  ⟨"IsDrawingWand", false⟩,
  ⟨"NewDrawingWand", false⟩,
  ⟨"PopDrawingWand", false⟩
]

/-- Chunk 12 of the declaration-access list (source order). -/
def apiDeclarations12 : List Decl := [
  ⟨"PopDrawingWand", false⟩,
  ⟨"PushDrawingWand", false⟩,
  ⟨"PushDrawingWand", false⟩
]

/-- The attribute accesses performed by the declaration block of
`api.py` (lines 187–1279), in source order, one entry per
`library.Name` / `libmagick.Name` access, with `guarded := true` for the
five accesses that sit inside an inner `try/except AttributeError`. -/
def apiDeclarations : List Decl :=
  apiDeclarations1 ++ apiDeclarations2 ++ apiDeclarations3 ++ apiDeclarations4 ++ apiDeclarations5 ++ apiDeclarations6 ++ apiDeclarations7 ++ apiDeclarations8 ++ apiDeclarations9 ++ apiDeclarations10 ++ apiDeclarations11 ++ apiDeclarations12

/-! ### `wand/api.py` — `find_library` and `load_library` -/

/-- The three branches `platform.system()` is compared against. -/
inductive SystemName where
  | windows
  | darwin
  | other
deriving DecidableEq

/-- `os.path.join` of two components. -/
def pathJoin2 (a b : String) : String := a ++ "/" ++ b

/-- `os.path.join` of three components. -/
def pathJoin3 (a b c : String) : String := a ++ "/" ++ b ++ "/" ++ c

/-- Result of `find_library`: the pair of candidate paths, plus the list
of names that were handed to the generic system search
(`ctypes.util.find_library`), in call order — the instrumentation used to
state that the `MAGICK_HOME` override short-circuits the generic
search. -/
structure FindLibraryResult where
  libwand : Option String
  libmagick : Option String
  genericSearches : List String
deriving DecidableEq

/-- `find_library(suffix)` of `api.py`.  `system` is `platform.system()`,
`magickHome` is `os.environ.get('MAGICK_HOME')`, and `genericFind` models
`ctypes.util.find_library` (returning `none` when nothing is found). -/
def find_library (system : SystemName) (magickHome : Option String)
    (genericFind : String → Option String) (suffix : String) : FindLibraryResult :=
  let first : Option String × List String :=
    match magickHome, system with
    | some home, .windows =>
      (some (pathJoin2 home ("CORE_RL_wand_" ++ suffix ++ ".dll")), [])
    | some home, .darwin =>
      (some (pathJoin3 home "lib" ("libMagickWand" ++ suffix ++ ".dylib")), [])
    | some home, .other =>
      (some (pathJoin3 home "lib" ("libMagickWand" ++ suffix ++ ".so")), [])
    | none, .windows =>
      (genericFind ("CORE_RL_wand_" ++ suffix), ["CORE_RL_wand_" ++ suffix])
    | none, .darwin =>
      (genericFind ("MagickWand" ++ suffix), ["MagickWand" ++ suffix])
    | none, .other =>
      (genericFind ("MagickWand" ++ suffix), ["MagickWand" ++ suffix])
  match system with
  | .windows =>
    match magickHome with
    | some home =>
      ⟨first.1, some (pathJoin2 home ("CORE_RL_magick_" ++ suffix ++ ".dll")), first.2⟩
    | none =>
      ⟨first.1, genericFind ("CORE_RL_magick_" ++ suffix),
        first.2 ++ ["CORE_RL_magick_" ++ suffix]⟩
  | _ => ⟨first.1, first.1, first.2⟩

/-- The fixed version tags of `load_library`. -/
def versions : List String := ["", "-Q16", "-Q8", "-6.Q16"]

/-- The fixed feature tags of `load_library`. -/
def featureTags : List String := ["", "HDRI"]

/-- The suffixes tried by `load_library`, in order:
`itertools.product(versions, featureTags)` with the version tag as the
major (outer) key, each pair concatenated. -/
def suffixes : List String :=
  (versions.map (fun v => featureTags.map (fun o => v ++ o))).flatten

/-- Worker for `load_library`.  `find` abstracts `find_library` applied
to a suffix, `load` abstracts whether `ctypes.CDLL` succeeds on a path.
`tried` is the code's `tried_paths` accumulator; `att` is
instrumentation recording every path handed to the dynamic loader, in
order.  Returns the code's result (first loaded pair, or the error
carrying `tried_paths`) together with the attempt log. -/
def loadLibraryGo (find : String → Option String × Option String)
    (load : String → Bool) :
    List String → List String → List String →
      Except (List String) (String × String) × List String
  | [], tried, att => (.error tried, att)
  | s :: rest, tried, att =>
    match find s with
    | (some w, some m) =>
      let tried' := tried ++ [w]
      let att' := att ++ [w]
      if load w then
        if w = m then (.ok (w, w), att')
        else
          let tried'' := tried' ++ [m]
          let att'' := att' ++ [m]
          if load m then (.ok (w, m), att'')
          else loadLibraryGo find load rest tried'' att''
      else loadLibraryGo find load rest tried' att'
    | _ => loadLibraryGo find load rest tried att

/-- `load_library()` of `api.py`: try each suffix in order; skip a suffix
whose primary or auxiliary path is `None`; swallow a load failure and
continue; on success return the loaded pair; when the suffixes are
exhausted, fail with the accumulated `tried_paths`. -/
def load_library (find : String → Option String × Option String)
    (load : String → Bool) : Except (List String) (String × String) :=
  (loadLibraryGo find load suffixes [] []).1

/-- The instrumented list of every path handed to the dynamic loader by
`load_library`, in attempt order. -/
def loadAttempts (find : String → Option String × Option String)
    (load : String → Bool) : List String :=
  (loadLibraryGo find load suffixes [] []).2

/-- A suffix is viable when `find_library` yields both paths and the
dynamic loader succeeds on them (the auxiliary load is skipped when the
two paths coincide). -/
def viable (find : String → Option String × Option String)
    (load : String → Bool) (s : String) : Bool :=
  match find s with
  | (some w, some m) => load w && (w == m || load m)
  | _ => false

/-! ### `wand/cli.py` — the `Parser` -/

/-- The Python values that matter for `Parser.run`'s input handling:
strings, integers, and lists.  Strings and lists are
`collections.Sequence` instances; integers are not. -/
inductive PyVal where
  | str (s : String)
  | int (n : Int)
  | list (xs : List PyVal)

/-- `isinstance(x, collections.Sequence)` on the modelled universe. -/
def pyIsSequence : PyVal → Bool
  | .str _ => true
  | .list _ => true
  | .int _ => false

/-- Indexing and unpacking a sequence yields its elements; for a string,
the elements are its one-character strings. -/
def pySeqElems : PyVal → List PyVal
  | .str s => s.data.map (fun c => PyVal.str (String.singleton c))
  | .list xs => xs
  | .int _ => []

/-- Whether `ctypes.c_char_p` accepts the value as an array element: a
string is taken as a byte buffer, an integer as a raw address (both per
the Python 2 `ctypes` documentation); anything else raises
`TypeError`. -/
def marshalable : PyVal → Bool
  | .str _ => true
  | .int _ => true
  | .list _ => false

/-- The error classes raised by `Parser` methods. -/
inductive PyError where
  | typeError
  | valueError
  | indexError
deriving DecidableEq

/-- How a call to `Parser.run` ends: a normal return — `.ok r` carries
the `c_int` result of `MagickCommandGenesis` — or a raised error. -/
inductive PyOutcome where
  | ok (result : Int)
  | raised (e : PyError)
deriving DecidableEq

/-- The `Parser` instance state: `self.command`. -/
structure Parser where
  command : List Char

namespace Parser

/-- The fixed class-level `utilities` table of `Parser`, in source order.
The native function pointers the dictionary maps to are identified here
by the utility name itself (they are opaque addresses to the caller). -/
def utilities : List (String × String) :=
  [("animate", "AnimateImageCommand"),
   ("compare", "CompareImageCommand"),
   ("composite", "CompositeImageCommand"),
   ("conjure", "ConjureImageCommand"),
   ("convert", "ConvertImageCommand"),
   ("display", "DisplayImageCommand"),
   ("identify", "IdentifyImageCommand"),
   ("import", "ImportImageCommand"),
   ("mogrify", "MogrifyImageCommand"),
   ("stream", "StreamImageCommand")]

/-- `Parser.find_utility`: `utility not in self.utilities` raises
`ValueError`, otherwise the mapped function pointer is returned.  A
non-string key is simply not in the dictionary (`ValueError`), except
that an unhashable key (a list) makes the membership test itself raise
`TypeError`. -/
def find_utility : PyVal → Except PyError String
  | .str s =>
    match utilities.lookup s with
    | some f => .ok f
    | none => .error .valueError
  | .int _ => .error .valueError
  | .list _ => .error .typeError

/-- `Parser.set_command`: strips the command string and stores it.  (The
`basestring` type check of the source is enforced here by the host type
`List Char`.) -/
def set_command (command : List Char) : Parser :=
  ⟨pyStrip command⟩

/-- `Parser.__init__` with a command argument: forwards to
`set_command`. -/
def init (command : List Char) : Parser :=
  set_command command

/-- `Parser.run(arguments)`: the ordered trace of native calls it makes,
and its outcome.  Follows `cli.py` lines 95–123 statement by statement:
reject a non-`Sequence` input (before any native call); call
`AcquireImageInfo`; read `arguments[0]` (`IndexError` on an empty
sequence); resolve the utility (`find_utility`); marshal the arguments
to a `c_char_p` array; call `AcquireExceptionInfo`,
`MagickCommandGenesis`, `CatchException`, `DestroyImageInfo`,
`DestroyExceptionInfo`; return the genesis result.  `genesisResult`
parameterizes the integer the native entry point returns. -/
def run (genesisResult : Int) (arguments : PyVal) : List NativeCall × PyOutcome :=
  if ¬ pyIsSequence arguments then ([], .raised .typeError)
  else
    match pySeqElems arguments with
    | [] => ([.acquireImageInfo], .raised .indexError)
    | a :: rest =>
      match find_utility a with
      | .error e => ([.acquireImageInfo], .raised e)
      | .ok func =>
        if (a :: rest).all marshalable then
          ([.acquireImageInfo, .acquireExceptionInfo,
            .commandGenesis func (a :: rest).length, .catchException,
            .destroyImageInfo, .destroyExceptionInfo], .ok genesisResult)
        else ([.acquireImageInfo], .raised .typeError)

/-- `Parser.__call__(**kwargs)`: formats the stored command with the
named values `v`, splits on whitespace, and forwards to `run`.  `none`
models `str.format` itself raising (unterminated replacement field), in
which case `run` is never reached. -/
def call (p : Parser) (v : String → List Char) (genesisResult : Int) :
    Option (List NativeCall × PyOutcome) :=
  (pyFormat v p.command).map fun s =>
    run genesisResult (.list ((pySplit s).map fun w => .str (String.mk w)))

end Parser

/-! ### Concrete locator/loader oracles used for evaluation -/

/-- A locator oracle for exercising `load_library`: every suffix yields
the same primary and auxiliary path `"L" ++ suffix`. -/
def cxFind : String → Option String × Option String :=
  fun s => (some ("L" ++ s), some ("L" ++ s))

/-- A loader oracle under which only the path `"LHDRI"` loads. -/
def cxLoad : String → Bool := fun p => p == "LHDRI"

/-- A locator oracle where every suffix yields path `"P" ++ suffix`. -/
def cx8Find : String → Option String × Option String :=
  fun s => (some ("P" ++ s), some ("P" ++ s))

/-- A loader oracle under which no path loads. -/
def cx8Load : String → Bool := fun _ => false

/-- The CLI template `convert \x7bsource\x7d -resize 64x64 \x7boutput\x7d`. -/
def exampleTemplate : List Char :=
  "convert ".data ++ [lbrace] ++ "source".data ++ [rbrace] ++
    " -resize 64x64 ".data ++ [lbrace] ++ "output".data ++ [rbrace]

/-- The named values `source=a.gif`, `output=b.gif`. -/
def exampleValues : String → List Char := fun n =>
  if n = "source" then "a.gif".data
  else if n = "output" then "b.gif".data
  else []

/-! ## Supporting lemmas -/

/-- Once the wrapper is finalized, further discard attempts make no
native calls. -/
theorem discardMany_finalized (n a : Nat) : discardMany n ⟨a, true⟩ = [] := by
  induction n with
  | zero => rfl
  | succ k ih => simpa [discardMany, discard] using ih

/-- When every unguarded declared name is present in the library, the
declaration block runs to completion. -/
theorem attachDeclarations_ready (lib : String → Bool) (ds : List Decl)
    (h : ∀ d ∈ ds, d.guarded = false → lib d.name = true) :
    attachDeclarations lib ds = .ready := by
  induction ds with
  | nil => rfl
  | cons d rest ih =>
    have hrest : ∀ d ∈ rest, d.guarded = false → lib d.name = true :=
      fun e he => h e (List.mem_cons_of_mem d he)
    by_cases hd : lib d.name = true
    · simp [attachDeclarations, hd, ih hrest]
    · have hg : d.guarded = true := by
        by_contra hng
        exact hd (h d (List.mem_cons_self d rest) (Bool.eq_false_iff.mpr hng))
      simp [attachDeclarations, hd, hg, ih hrest]

/-- Running the declaration block against a library that exports every
name except `x` aborts with `ImportError` for `x` as soon as the block
holds at least one unguarded access of `x`. -/
theorem attachDeclarations_missing (x : String) :
    ∀ ds : List Decl, (∃ d ∈ ds, d.name = x ∧ d.guarded = false) →
      attachDeclarations (fun n => !(n == x)) ds = .importError x := by
  intro ds
  induction ds with
  | nil => rintro ⟨d, hd, _⟩; exact absurd hd (List.not_mem_nil d)
  | cons d rest ih =>
    rintro ⟨e, he, hex, heg⟩
    by_cases hdx : d.name = x
    · have hlib : (!(d.name == x)) = false := by simp [hdx]
      by_cases hg : d.guarded = true
      · have hrest : ∃ d ∈ rest, d.name = x ∧ d.guarded = false := by
          rcases List.mem_cons.mp he with rfl | hmem
          · exact absurd hg (by simp [heg])
          · exact ⟨e, hmem, hex, heg⟩
        simp only [attachDeclarations, hlib, Bool.false_eq_true, if_false, hg,
          if_true]
        exact ih hrest
      · simp only [attachDeclarations, hlib, Bool.false_eq_true, if_false,
          Bool.eq_false_iff.mpr hg, if_false]
        exact congrArg InitOutcome.importError hdx
    · have hlib : (!(d.name == x)) = true := by simp [hdx]
      have hrest : ∃ d ∈ rest, d.name = x ∧ d.guarded = false := by
        rcases List.mem_cons.mp he with rfl | hmem
        · exact absurd hex hdx
        · exact ⟨e, hmem, hex, heg⟩
      simp only [attachDeclarations, hlib, if_true]
      exact ih hrest

/-- The first suffix accepted by `viable` determines the result of the
loader loop, whatever the accumulators hold. -/
theorem loadLibraryGo_first_viable (find : String → Option String × Option String)
    (load : String → Bool) (sl : List String) :
    ∀ (tried att : List String) (s : String),
      sl.find? (viable find load) = some s →
      (loadLibraryGo find load sl tried att).1 =
        .ok ((find s).1.getD "", (find s).2.getD "") := by
  induction sl with
  | nil => intro tried att s h; simp [List.find?] at h
  | cons hd tl ih =>
    intro tried att s h
    rw [List.find?_cons] at h
    cases hv : viable find load hd with
    | true =>
      rw [hv] at h
      injection h with h; subst h
      rcases hfind : find hd with ⟨_ | w, _ | m⟩ <;>
        simp [viable, hfind] at hv
      obtain ⟨hw, hm⟩ := hv
      by_cases hwm : w = m
      · subst hwm
        simp [loadLibraryGo, hfind, hw]
      · have hm' : load m = true := hm.resolve_left hwm
        simp [loadLibraryGo, hfind, hw, hwm, hm']
    | false =>
      rw [hv] at h
      rcases hfind : find hd with ⟨_ | w, _ | m⟩ <;>
        simp only [loadLibraryGo, hfind]
      · exact ih _ _ s h
      · exact ih _ _ s h
      · exact ih _ _ s h
      · simp only [viable, hfind] at hv
        cases hw : load w with
        | false => simp only [hw, Bool.false_eq_true, if_false]; exact ih _ _ s h
        | true =>
          rw [hw] at hv
          simp only [Bool.true_and] at hv
          have hor := Bool.or_eq_false_iff.mp hv
          have hwm : ¬ w = m := fun he => by simp [he] at hor
          simp only [hw, if_true, hwm, if_false, hor.2, Bool.false_eq_true]
          exact ih _ _ s h

/-- In the loader loop, the `tried_paths` accumulator and the
instrumented list of dynamic-loader attempts grow in lockstep, so on
exhaustion the reported list is exactly the attempt log. -/
theorem loadLibraryGo_error_attempts (find : String → Option String × Option String)
    (load : String → Bool) (sl : List String) :
    ∀ (t : List String) (ps : List String),
      (loadLibraryGo find load sl t t).1 = .error ps →
      ps = (loadLibraryGo find load sl t t).2 := by
  induction sl with
  | nil =>
    intro t ps h
    simp only [loadLibraryGo] at h ⊢
    injection h with h
    exact h.symm
  | cons hd tl ih =>
    intro t ps h
    rcases hfind : find hd with ⟨_ | w, _ | m⟩ <;>
      simp only [loadLibraryGo, hfind] at h ⊢
    · exact ih _ ps h
    · exact ih _ ps h
    · exact ih _ ps h
    · cases hw : load w with
      | false =>
        simp only [hw, Bool.false_eq_true, if_false] at h ⊢
        exact ih _ ps h
      | true =>
        simp only [hw, if_true] at h ⊢
        by_cases hwm : w = m
        · simp only [hwm, if_true] at h
          exact absurd h (by simp)
        · simp only [hwm, if_false] at h ⊢
          cases hm : load m with
          | true =>
            simp only [hm, if_true] at h
            exact absurd h (by simp)
          | false =>
            simp only [hm, Bool.false_eq_true, if_false] at h ⊢
            exact ih _ ps h

/-- Helper for counting in a genesis trace: a `commandGenesis` event is
never a `destroyImageInfo` event. -/
theorem commandGenesis_beq_destroyImageInfo (f : String) (n : Nat) :
    (NativeCall.commandGenesis f n == NativeCall.destroyImageInfo) = false := rfl

/-- Helper for counting in a genesis trace: a `commandGenesis` event is
never a `destroyExceptionInfo` event. -/
theorem commandGenesis_beq_destroyExceptionInfo (f : String) (n : Nat) :
    (NativeCall.commandGenesis f n == NativeCall.destroyExceptionInfo) = false := rfl

/-! ## Claims -/

/-- Claim C1 (corrected), counterexample to the original claim: on
`run(["not-a-recognized-utility", "x"])` the call does fail with a value
error, but a native allocation call — `AcquireImageInfo` — has already
been made before the utility-name check fails (it is line 105 of
`cli.py`, executed before `find_utility` on line 107). -/
theorem C1_counterexample :
    Parser.run 0 (.list [.str "not-a-recognized-utility", .str "x"]) =
      ([.acquireImageInfo], .raised .valueError) ∧
    (Parser.run 0 (.list [.str "not-a-recognized-utility", .str "x"])).1.count
        .acquireImageInfo = 1 :=
  ⟨rfl, rfl⟩

/-- Claim C1 (amended): for every argument sequence whose first token is
a string that is not one of the ten recognized utility names,
`Parser.run` fails with a value error; `AcquireExceptionInfo` is not
called before the failure, but `AcquireImageInfo` is called exactly once
before the utility-name check, and the allocated `ImageInfo` is not
destroyed by the failing call. -/
theorem C1_unknown_utility_value_error (g : Int) (s : String) (rest : List PyVal)
    (h : Parser.utilities.lookup s = none) :
    Parser.run g (.list (.str s :: rest)) = ([.acquireImageInfo], .raised .valueError) := by
  simp [Parser.run, pyIsSequence, pySeqElems, Parser.find_utility, h]

/-- Claim C1 witness: the amended theorem applied to the concrete
unrecognized utility name. -/
theorem C1_witness :
    Parser.run 0 (.list [.str "nothing-at-all", .str "x"]) =
      ([.acquireImageInfo], .raised .valueError) :=
  C1_unknown_utility_value_error 0 "nothing-at-all" [.str "x"] (by decide)

/-- Claim C2 (corrected), counterexample to the original claim:
`MagickReadImage` is a declared (unguarded) function name, and a library
lacking it makes the declaration block abort with an `ImportError` — the
registry does not reach the Ready state, so a missing declared function
is not, in general, tolerated per-declaration. -/
theorem C2_counterexample :
    Decl.mk "MagickReadImage" false ∈ apiDeclarations ∧
    attachDeclarations (fun n => !(n == "MagickReadImage")) apiDeclarations =
      .importError "MagickReadImage" := by
  constructor
  · decide
  · rfl

/-- Claim C2 (amended): only the five individually guarded declarations
(`MagickAutoOrientImage`, `DrawGetTextDirection`,
`DrawGetTextInterlineSpacing`, `DrawSetTextDirection`,
`DrawSetTextInterlineSpacing`) are caught per-declaration: whenever
every unguarded declared name is present in the loaded library, the
registry reaches the Ready state, regardless of whether the guarded
names are present — in particular a library lacking exactly
`MagickAutoOrientImage` still yields a Ready registry; and for every
unguarded declared name, a library lacking that one name makes
initialization abort with an `ImportError` naming it, so the registry
does not reach the Ready state. -/
theorem C2_guarded_declarations_optional :
    (∀ lib : String → Bool,
        (∀ d ∈ apiDeclarations, d.guarded = false → lib d.name = true) →
        attachDeclarations lib apiDeclarations = .ready) ∧
    attachDeclarations (fun n => !(n == "MagickAutoOrientImage")) apiDeclarations =
      .ready ∧
    (∀ d ∈ apiDeclarations, d.guarded = false →
        attachDeclarations (fun n => !(n == d.name)) apiDeclarations =
          .importError d.name) := by
  refine ⟨fun lib h => attachDeclarations_ready lib apiDeclarations h, rfl, ?_⟩
  intro d hd hg
  exact attachDeclarations_missing d.name apiDeclarations ⟨d, hd, rfl, hg⟩

/-- Claim C2 witness: the amended theorem applied to a library exporting
every name, and to a library lacking exactly the unguarded declared name
`MagickGetImageBlob`. -/
theorem C2_witness :
    attachDeclarations (fun _ => true) apiDeclarations = .ready ∧
    attachDeclarations (fun n => !(n == "MagickGetImageBlob")) apiDeclarations =
      .importError "MagickGetImageBlob" :=
  ⟨C2_guarded_declarations_optional.1 (fun _ => true) (fun _ _ _ => rfl),
   C2_guarded_declarations_optional.2.2 ⟨"MagickGetImageBlob", false⟩
     (by decide) rfl⟩

/-- Claim C3 (confirmed): in every execution of `Parser.run` in which
the native command entry point returns — whatever integer it reports,
success or failure — the trace contains exactly one `DestroyImageInfo`
call and exactly one `DestroyExceptionInfo` call: destruction is never
skipped and never duplicated.  (The exception-drain step,
`CatchException`, is a `ctypes` foreign call with declared argument
types and cannot raise at the Python level, so every execution that
reaches it also reaches both destroy calls.) -/
theorem C3_destroy_exactly_once (g r : Int) (args : PyVal) (trace : List NativeCall)
    (h : Parser.run g args = (trace, .ok r)) :
    trace.count .destroyImageInfo = 1 ∧ trace.count .destroyExceptionInfo = 1 := by
  unfold Parser.run at h
  split at h
  · exact absurd (congrArg Prod.snd h) (by simp)
  · split at h
    · exact absurd (congrArg Prod.snd h) (by simp)
    · split at h
      · exact absurd (congrArg Prod.snd h) (by simp)
      · split at h
        · have htrace := congrArg Prod.fst h
          simp only at htrace
          subst htrace
          exact ⟨rfl, rfl⟩
        · exact absurd (congrArg Prod.snd h) (by simp)

/-- Claim C3 witness: a concrete successful `convert` run with its full
trace. -/
theorem C3_witness :
    Parser.run 5 (.list [.str "convert", .str "in.png", .str "out.jpg"]) =
      ([.acquireImageInfo, .acquireExceptionInfo,
        .commandGenesis "ConvertImageCommand" 3, .catchException,
        .destroyImageInfo, .destroyExceptionInfo], .ok 5) ∧
    ([NativeCall.acquireImageInfo, .acquireExceptionInfo,
      .commandGenesis "ConvertImageCommand" 3, .catchException,
      .destroyImageInfo, .destroyExceptionInfo].count .destroyImageInfo = 1 ∧
     [NativeCall.acquireImageInfo, .acquireExceptionInfo,
      .commandGenesis "ConvertImageCommand" 3, .catchException,
      .destroyImageInfo, .destroyExceptionInfo].count .destroyExceptionInfo = 1) :=
  ⟨rfl, C3_destroy_exactly_once 5 5 (.list [.str "convert", .str "in.png", .str "out.jpg"]) _ rfl⟩

/-- Claim C4 (corrected), counterexample to the original claim: the
input `[1]` is a sequence but not a sequence of strings; `run` on it
does not fail with a type error before native allocation — it allocates
an `ImageInfo` and then fails with a value error from the utility
lookup. -/
theorem C4_counterexample :
    pyIsSequence (.list [.int 1]) = true ∧
    Parser.run 0 (.list [.int 1]) = ([.acquireImageInfo], .raised .valueError) :=
  ⟨rfl, rfl⟩

/-- Claim C4 (amended): `Parser.run` fails with a type error before any
native allocation exactly for inputs that are not sequences; the
validation does not inspect the elements, so every sequence — including
one holding non-string elements — passes it, and the first native
allocation (`AcquireImageInfo`) is then performed before any later
failure. -/
theorem C4_validation_rejects_non_sequences :
    (∀ (g : Int) (x : PyVal), pyIsSequence x = false →
        Parser.run g x = ([], .raised .typeError)) ∧
    (∀ (g : Int) (x : PyVal), pyIsSequence x = true →
        (Parser.run g x).1.head? = some .acquireImageInfo) := by
  constructor
  · intro g x h
    simp [Parser.run, h]
  · intro g x h
    unfold Parser.run
    simp only [h, not_true_eq_false, if_false]
    rcases he : pySeqElems x with _ | ⟨a, rest⟩
    · rfl
    · rcases hf : Parser.find_utility a with e | f
      · simp [hf]
      · by_cases hm : ((a :: rest).all marshalable) = true
        · simp [hf, hm]
        · simp [hf, hm]

/-- Claim C4 witness: the amended theorem applied to a non-sequence
input and to a sequence holding a non-string element. -/
theorem C4_witness :
    Parser.run 0 (.int 3) = ([], .raised .typeError) ∧
    (Parser.run 0 (.list [.str "convert", .int 5])).1.head? =
      some .acquireImageInfo :=
  ⟨C4_validation_rejects_non_sequences.1 0 (.int 3) rfl,
   C4_validation_rejects_non_sequences.2 0 (.list [.str "convert", .int 5]) rfl⟩

/-- Claim C5 (confirmed): discarding an owned-string wrapper invokes
`MagickRelinquishMemory` exactly once, on exactly the raw address the
wrapper holds — for any address, including the null address `0`, which
is passed through unchanged (the wrapper performs no null check of its
own) — and repeated discard attempts still yield exactly one call. -/
theorem C5_release_exactly_once (addr n : Nat) (h : 1 ≤ n) :
    c_magick_char_p_del addr = [.magickRelinquishMemory addr] ∧
    discardMany n ⟨addr, false⟩ = [.magickRelinquishMemory addr] := by
  refine ⟨rfl, ?_⟩
  match n, h with
  | k + 1, _ =>
    show c_magick_char_p_del addr ++ discardMany k ⟨addr, true⟩ = _
    rw [discardMany_finalized]
    rfl

/-- Claim C5 witness: three discard attempts on a wrapper holding the
null address. -/
theorem C5_witness :
    c_magick_char_p_del 0 = [.magickRelinquishMemory 0] ∧
    discardMany 3 ⟨0, false⟩ = [.magickRelinquishMemory 0] :=
  C5_release_exactly_once 0 3 (by decide)

/-- Claim C7 (confirmed): whenever `MAGICK_HOME` is set, `find_library`
never calls the generic system search (`ctypes.util.find_library`), and
it builds the candidate paths directly under the override root with the
platform naming pattern: Windows a versioned `CORE_RL_*_.dll` pair,
Darwin `lib/libMagickWand<suffix>.dylib`, other Unix
`lib/libMagickWand<suffix>.so` (the auxiliary path equal to the primary
off Windows). -/
theorem C7_magick_home_short_circuits (home suffix : String)
    (g : String → Option String) :
    (∀ system : SystemName,
        (find_library system (some home) g suffix).genericSearches = []) ∧
    find_library .windows (some home) g suffix =
      ⟨some (home ++ "/" ++ ("CORE_RL_wand_" ++ suffix ++ ".dll")),
       some (home ++ "/" ++ ("CORE_RL_magick_" ++ suffix ++ ".dll")), []⟩ ∧
    find_library .darwin (some home) g suffix =
      ⟨some (home ++ "/" ++ "lib" ++ "/" ++ ("libMagickWand" ++ suffix ++ ".dylib")),
       some (home ++ "/" ++ "lib" ++ "/" ++ ("libMagickWand" ++ suffix ++ ".dylib")), []⟩ ∧
    find_library .other (some home) g suffix =
      ⟨some (home ++ "/" ++ "lib" ++ "/" ++ ("libMagickWand" ++ suffix ++ ".so")),
       some (home ++ "/" ++ "lib" ++ "/" ++ ("libMagickWand" ++ suffix ++ ".so")), []⟩ := by
  refine ⟨fun system => ?_, rfl, rfl, rfl⟩
  cases system <;> rfl

/-- Claim C10 (confirmed): `Parser.run` on an empty sequence passes the
sequence validation, allocates a native `ImageInfo`, and fails with an
index error — not a type or value error — when reading the first token;
the trace holds no `DestroyImageInfo` call, so the allocated `ImageInfo`
is never destroyed by that call. -/
theorem C10_empty_sequence_leaks_imageinfo (g : Int) :
    Parser.run g (.list []) = ([.acquireImageInfo], .raised .indexError) ∧
    (Parser.run g (.list [])).1.count .destroyImageInfo = 0 :=
  ⟨rfl, rfl⟩

/-- Claim C6 (corrected), counterexample to the original claim: under
the oracles `cxFind`/`cxLoad`, the very first suffix combination `""`
already yields a non-empty primary and auxiliary path (`"L"`), yet
`load_library` does not stop there — the load of `"L"` fails, is
swallowed, and the result comes from the second combination `"HDRI"`. -/
theorem C6_counterexample :
    suffixes.head? = some "" ∧
    cxFind "" = (some "L", some "L") ∧
    load_library cxFind cxLoad = .ok ("LHDRI", "LHDRI") ∧
    load_library cxFind cxLoad ≠ .ok ("L", "L") := by
  refine ⟨rfl, rfl, rfl, ?_⟩
  intro hc
  have h2 : (("LHDRI" : String), ("LHDRI" : String)) = (("L" : String), ("L" : String)) := by
    injection hc
  exact absurd (congrArg Prod.fst h2) (by decide)

/-- Claim C6 (amended): `load_library` tries the suffix combinations in
exactly the fixed priority order given by the product
`("", "-Q16", "-Q8", "-6.Q16") × ("", "HDRI")` (version tag major,
feature tag minor); it skips without error every combination whose
primary or auxiliary path is absent or whose located libraries fail to
load, and stops at the first combination whose primary and auxiliary
paths are both present and whose libraries load successfully, returning
those paths. -/
theorem C6_fixed_order_first_loadable :
    suffixes = ["", "HDRI", "-Q16", "-Q16HDRI", "-Q8", "-Q8HDRI",
      "-6.Q16", "-6.Q16HDRI"] ∧
    ∀ (find : String → Option String × Option String) (load : String → Bool)
      (s : String),
      suffixes.find? (viable find load) = some s →
      load_library find load = .ok ((find s).1.getD "", (find s).2.getD "") := by
  refine ⟨rfl, fun find load s h => ?_⟩
  exact loadLibraryGo_first_viable find load suffixes [] [] s h

/-- Claim C6 witness: under `cxFind`/`cxLoad` the first viable suffix is
`"HDRI"`, and the amended theorem yields its candidate pair. -/
theorem C6_witness :
    suffixes.find? (viable cxFind cxLoad) = some "HDRI" ∧
    load_library cxFind cxLoad = .ok ("LHDRI", "LHDRI") :=
  ⟨by decide, C6_fixed_order_first_loadable.2 cxFind cxLoad "HDRI" (by decide)⟩

/-- Claim C8 (confirmed): when every candidate fails to load,
`load_library` fails with an error enumerating exactly the paths that
were handed to the dynamic loader, in attempt order; and an individual
candidate load failure is silently swallowed — whenever any later
combination is viable, the loader still succeeds with it. -/
theorem C8_error_lists_attempted_paths :
    (∀ (find : String → Option String × Option String) (load : String → Bool)
        (ps : List String),
        load_library find load = .error ps → ps = loadAttempts find load) ∧
    (∀ (find : String → Option String × Option String) (load : String → Bool)
        (s : String),
        suffixes.find? (viable find load) = some s →
        load_library find load = .ok ((find s).1.getD "", (find s).2.getD "")) := by
  constructor
  · intro find load ps h
    exact loadLibraryGo_error_attempts find load suffixes [] ps h
  · intro find load s h
    exact loadLibraryGo_first_viable find load suffixes [] [] s h

/-- Claim C8 witness: with every load failing, the error lists all eight
attempted paths in order; and with only the second candidate loadable,
the loader succeeds with it. -/
theorem C8_witness :
    load_library cx8Find cx8Load =
      .error ["P", "PHDRI", "P-Q16", "P-Q16HDRI", "P-Q8", "P-Q8HDRI",
        "P-6.Q16", "P-6.Q16HDRI"] ∧
    ["P", "PHDRI", "P-Q16", "P-Q16HDRI", "P-Q8", "P-Q8HDRI",
      "P-6.Q16", "P-6.Q16HDRI"] = loadAttempts cx8Find cx8Load ∧
    load_library cxFind cxLoad = .ok ("LHDRI", "LHDRI") :=
  ⟨rfl,
   C8_error_lists_attempted_paths.1 cx8Find cx8Load _ rfl,
   C8_error_lists_attempted_paths.2 cxFind cxLoad "HDRI" (by decide)⟩

/-! ## String lemmas for the bind/invoke pipeline -/

/-- A whitespace character is neither brace. -/
theorem pyIsSpace_ne_braces (c : Char) (h : pyIsSpace c = true) :
    (c == lbrace) = false ∧ (c == rbrace) = false := by
  simp [pyIsSpace] at h
  rcases h with ((((h | h) | h) | h) | h) | h <;> subst h <;> decide

/-- Splitting an all-whitespace string yields no words. -/
theorem pySplitGo_all_space :
    ∀ ws : List Char, (∀ c ∈ ws, pyIsSpace c = true) → pySplitGo ws [] = [] := by
  intro ws
  induction ws with
  | nil => intro _; rfl
  | cons c cs ih =>
    intro h
    have hc := h c (List.mem_cons_self c cs)
    simp [pySplitGo, hc, ih (fun x hx => h x (List.mem_cons_of_mem c hx))]

/-- A whitespace prefix does not affect splitting. -/
theorem pySplitGo_space_leading :
    ∀ ws : List Char, (∀ c ∈ ws, pyIsSpace c = true) →
      ∀ l : List Char, pySplitGo (ws ++ l) [] = pySplitGo l [] := by
  intro ws
  induction ws with
  | nil => intro _ l; rfl
  | cons c cs ih =>
    intro h l
    have hc := h c (List.mem_cons_self c cs)
    simp [pySplitGo, hc, ih (fun x hx => h x (List.mem_cons_of_mem c hx)) l]

/-- A whitespace suffix does not affect splitting, whatever word is in
progress. -/
theorem pySplitGo_space_suffix (ws : List Char) (h : ∀ c ∈ ws, pyIsSpace c = true) :
    ∀ l : List Char, ∀ acc : List Char,
      pySplitGo (l ++ ws) acc = pySplitGo l acc := by
  intro l
  induction l with
  | nil =>
    intro acc
    cases ws with
    | nil => rfl
    | cons w ws' =>
      have hw := h w (List.mem_cons_self w ws')
      have hws' : ∀ c ∈ ws', pyIsSpace c = true :=
        fun c hc => h c (List.mem_cons_of_mem w hc)
      by_cases ha : acc = []
      · subst ha
        simp [pySplitGo, hw, pySplitGo_all_space ws' hws']
      · simp [pySplitGo, hw, ha, pySplitGo_all_space ws' hws']
  | cons c cs ih =>
    intro acc
    by_cases hc : pyIsSpace c = true
    · by_cases ha : acc = [] <;> simp [pySplitGo, hc, ha, ih]
    · simp [pySplitGo, hc, ih]

/-- A brace-free string formats to itself. -/
theorem fmtGo_no_lbrace (v : String → List Char) :
    ∀ w : List Char, (∀ c ∈ w, (c == lbrace) = false) →
      ∀ acc : List Char, fmtGo v w acc false = some w := by
  intro w
  induction w with
  | nil => intro _ _; rfl
  | cons c cs ih =>
    intro h acc
    have hc := h c (List.mem_cons_self c cs)
    simp [fmtGo, hc, ih (fun x hx => h x (List.mem_cons_of_mem c hx)) acc]

/-- A replacement field that never closes makes formatting fail. -/
theorem fmtGo_no_rbrace (v : String → List Char) :
    ∀ w : List Char, (∀ c ∈ w, (c == rbrace) = false) →
      ∀ acc : List Char, fmtGo v w acc true = none := by
  intro w
  induction w with
  | nil => intro _ _; rfl
  | cons c cs ih =>
    intro h acc
    have hc := h c (List.mem_cons_self c cs)
    simp [fmtGo, hc, ih (fun x hx => h x (List.mem_cons_of_mem c hx)) (c :: acc)]

/-- Appending a brace-free tail commutes with formatting: the tail is
passed through unchanged, in every scanner state. -/
theorem fmtGo_append_no_brace (v : String → List Char) (w : List Char)
    (hw : ∀ c ∈ w, (c == lbrace) = false ∧ (c == rbrace) = false) :
    ∀ (m acc : List Char) (mode : Bool),
      fmtGo v (m ++ w) acc mode =
        Option.map (fun r => r ++ w) (fmtGo v m acc mode) := by
  intro m
  induction m with
  | nil =>
    intro acc mode
    cases mode with
    | false =>
      rw [List.nil_append, fmtGo_no_lbrace v w (fun c hc => (hw c hc).1) acc]
      rfl
    | true =>
      rw [List.nil_append, fmtGo_no_rbrace v w (fun c hc => (hw c hc).2) acc]
      rfl
  | cons c cs ih =>
    intro acc mode
    cases mode with
    | false =>
      by_cases hc : (c == lbrace) = true
      · simp only [List.cons_append, fmtGo, hc, if_true]
        exact ih [] true
      · simp only [List.cons_append, fmtGo, hc, Bool.false_eq_true, if_false,
          List.append_eq]
        rw [ih acc false]
        cases fmtGo v cs acc false <;> simp
    | true =>
      by_cases hc : (c == rbrace) = true
      · simp only [List.cons_append, fmtGo, hc, if_true, List.append_eq]
        rw [ih [] false]
        cases fmtGo v cs [] false <;> simp
      · simp only [List.cons_append, fmtGo, hc, Bool.false_eq_true, if_false]
        exact ih (c :: acc) true

/-- A brace-free prefix commutes with formatting. -/
theorem fmtGo_prefix_no_lbrace (v : String → List Char) :
    ∀ ws : List Char, (∀ c ∈ ws, (c == lbrace) = false) →
      ∀ m : List Char,
        fmtGo v (ws ++ m) [] false =
          Option.map (fun r => ws ++ r) (fmtGo v m [] false) := by
  intro ws
  induction ws with
  | nil =>
    intro _ m
    rw [List.nil_append]
    cases fmtGo v m [] false <;> rfl
  | cons c cs ih =>
    intro h m
    have hc := h c (List.mem_cons_self c cs)
    simp only [List.cons_append, fmtGo, hc, Bool.false_eq_true, if_false,
      List.append_eq]
    rw [ih (fun x hx => h x (List.mem_cons_of_mem c hx)) m]
    cases fmtGo v m [] false <;> simp

/-- Formatting a template is formatting its stripped core with the
surrounding whitespace reattached: `str.strip` removes only whitespace,
which passes through `str.format` unchanged. -/
theorem pyFormat_strip (v : String → List Char) (t : List Char) :
    pyFormat v t =
      Option.map
        (fun r => t.takeWhile pyIsSpace ++
          (r ++ ((t.dropWhile pyIsSpace).reverse.takeWhile pyIsSpace).reverse))
        (pyFormat v (pyStrip t)) := by
  have hw1 : ∀ c ∈ t.takeWhile pyIsSpace, pyIsSpace c = true :=
    fun c hc => List.mem_takeWhile_imp hc
  have hw2 : ∀ c ∈ ((t.dropWhile pyIsSpace).reverse.takeWhile pyIsSpace).reverse,
      pyIsSpace c = true :=
    fun c hc => List.mem_takeWhile_imp (List.mem_reverse.mp hc)
  have hsplit2 : t.dropWhile pyIsSpace =
      pyStrip t ++ ((t.dropWhile pyIsSpace).reverse.takeWhile pyIsSpace).reverse := by
    conv_lhs => rw [← List.reverse_reverse (t.dropWhile pyIsSpace),
      ← List.takeWhile_append_dropWhile pyIsSpace (t.dropWhile pyIsSpace).reverse,
      List.reverse_append]
    rfl
  have hsplit : t = t.takeWhile pyIsSpace ++
      (pyStrip t ++ ((t.dropWhile pyIsSpace).reverse.takeWhile pyIsSpace).reverse) := by
    conv_lhs => rw [← List.takeWhile_append_dropWhile pyIsSpace t, hsplit2]
  conv_lhs => rw [show pyFormat v t = fmtGo v t [] false from rfl, hsplit]
  rw [fmtGo_prefix_no_lbrace v (t.takeWhile pyIsSpace)
      (fun c hc => (pyIsSpace_ne_braces c (hw1 c hc)).1),
    fmtGo_append_no_brace v _
      (fun c hc => pyIsSpace_ne_braces c (hw2 c hc)) (pyStrip t) [] false,
    Option.map_map]
  rfl

/-- Claim C9 (confirmed): binding a template and invoking it with named
values executes `run` on exactly the token sequence obtained by
substituting the values into the template and splitting on whitespace
(whenever the substitution itself succeeds; the `strip` performed by
`set_command` cannot change the resulting tokens); in particular the
`convert \x7bsource\x7d -resize 64x64 \x7boutput\x7d` template invoked
with `source=a.gif`, `output=b.gif` runs the same token sequence as
`run(["convert", "a.gif", "-resize", "64x64", "b.gif"])`. -/
theorem C9_bind_invoke_refines_run :
    (∀ (t : List Char) (v : String → List Char) (g : Int),
        (Parser.init t).call v g =
          Option.map
            (fun s => Parser.run g
              (.list ((pySplit s).map fun w => .str (String.mk w))))
            (pyFormat v t)) ∧
    (Parser.init exampleTemplate).call exampleValues 1 =
      some (Parser.run 1 (.list [.str "convert", .str "a.gif", .str "-resize",
        .str "64x64", .str "b.gif"])) := by
  constructor
  · intro t v g
    show Option.map _ (pyFormat v (pyStrip t)) = _
    rw [pyFormat_strip v t, Option.map_map]
    cases hm : pyFormat v (pyStrip t) with
    | none => rfl
    | some r =>
      have htok : pySplit (t.takeWhile pyIsSpace ++
          (r ++ ((t.dropWhile pyIsSpace).reverse.takeWhile pyIsSpace).reverse)) =
          pySplit r := by
        unfold pySplit
        rw [pySplitGo_space_leading (t.takeWhile pyIsSpace)
            (fun c hc => List.mem_takeWhile_imp hc)]
        exact pySplitGo_space_suffix _
          (fun c hc => List.mem_takeWhile_imp (List.mem_reverse.mp hc)) r []
      simp only [Option.map_some', Function.comp]
      rw [htok]
  · rfl

end Wand
